import Mathlib

/-!
Shallow embedding of `src/main.py` of thws-idee/docling-inference: the
conversion-invoker, picture-annotation aggregation, output rendering and the
two request handlers, together with the authorization dependency.

The external docling pipeline is a black box: its per-request outcome (a
`ConversionResult`, or an exception escaping `converter.convert`) is a
parameter of the embedded invoker.  Document exports
(`export_to_markdown`/`text`/`html`/`dict`), item iteration and caption
resolution are modelled as pure data carried by the document value, exactly
the collaborator interface the code consumes.
-/

/-- docling's `ConversionStatus` enumeration (base_models). -/
inductive ConversionStatus
  | pending
  | started
  | failure
  | success
  | partial_success
  | skipped
deriving DecidableEq, BEq

/-- docling's `DoclingComponentType` enumeration (base_models). -/
inductive DoclingComponentType
  | document_backend
  | model
  | doc_assembler
  | user_input
deriving DecidableEq, BEq

/-- Python `Enum.name` of a `DoclingComponentType` member, as used in the
log line of `_check_conversion_result`. -/
def DoclingComponentType.name : DoclingComponentType → String
  | .document_backend => "DOCUMENT_BACKEND"
  | .model => "MODEL"
  | .doc_assembler => "DOC_ASSEMBLER"
  | .user_input => "USER_INPUT"

/-- One error record of a `ConversionResult` (`component_type`,
`error_message`; the record's `module_name` is never read by this layer). -/
structure ErrorItem where
  component_type : DoclingComponentType
  error_message : String
deriving DecidableEq

/-- One entry of `PictureClassificationData.predicted_classes`; the code reads
only its `class_name` (confidence is never consumed by this layer). -/
structure PictureClassificationClass where
  class_name : String
deriving DecidableEq

/-- A picture annotation: `PictureClassificationData` (its list of predicted
classes), `PictureDescriptionData` (its text), or any other annotation kind,
which both `isinstance` branches skip. -/
inductive PictureAnnotationData
  | classification (predicted_classes : List PictureClassificationClass)
  | description (text : String)
  | misc
deriving DecidableEq

/-- A `PictureItem` of the document tree: its `self_ref` and its
`annotations` list.  Its caption is resolved through the document
(`caption_text(doc=doc)`), modelled by the document's caption table. -/
structure PictureItem where
  self_ref : String
  annotations : List PictureAnnotationData
deriving DecidableEq

/-- One item yielded by `doc.iterate_items()`: a `PictureItem` or any other
node kind (text, table, ...), which the aggregation skips. -/
inductive DocItem
  | picture (p : PictureItem)
  | other (self_ref : String)
deriving DecidableEq

/-- JSON-like values, enough for `picture_data` records and the dict export. -/
inductive JsonVal
  | str (s : String)
  | arr (l : List JsonVal)
  | obj (l : List (String × JsonVal))

/-- The converted `DoclingDocument`, at the collaborator interface the code
consumes: `iterate_items()` as the list of (item, level) pairs it yields,
`caption_text` resolution as a table keyed by `self_ref`, and the three
textual exports plus the dict export as the pure values those deterministic
methods return. -/
structure DoclingDocument where
  items : List (DocItem × Nat)
  captions : List (String × String)
  export_to_markdown : String
  export_to_text : String
  export_to_html : String
  export_to_dict : List (String × JsonVal)

/-- `element.caption_text(doc=doc)`: resolve a picture's caption against the
document ("" when the picture has no caption refs). -/
def caption_text (doc : DoclingDocument) (p : PictureItem) : String :=
  match doc.captions.find? (fun c => c.1 == p.self_ref) with
  | some c => c.2
  | none => ""

/-- docling's per-request `ConversionResult`: status, error records, document. -/
structure ConversionResult where
  status : ConversionStatus
  errors : List ErrorItem
  document : DoclingDocument

/-- Modelled from the spec (§6): the `OutputFormat` enumeration of
`src/models.py` (a file not in the repository snapshot), with the three
members markdown, text, html. -/
inductive OutputFormat
  | markdown
  | text
  | html
deriving DecidableEq

/-- Modelled from the spec (§6): the request fields of `ParseUrlRequest`
(`src/models.py`): url, output_format, include_json. -/
structure ParseUrlRequest where
  url : String
  output_format : OutputFormat
  include_json : Bool

/-- Modelled from the spec (§6): the form fields of `ParseFileRequest`
(`src/models.py`): output_format, include_json. -/
structure ParseFileRequest where
  output_format : OutputFormat
  include_json : Bool

/-- Modelled from the spec (§3): `ParseResponseData` of `src/models.py`:
output string and json_output mapping-or-null.  `output` is an `Option`
because `_get_output` has an implicit `None` fall-through. -/
structure ParseResponseData where
  output : Option String
  json_output : Option (List (String × JsonVal))

/-- Modelled from the spec (§3): `ParseResponse` of `src/models.py`:
message, status ("Ok"/"NOk"), data. -/
structure ParseResponse where
  message : String
  status : String
  data : ParseResponseData

/-- A raised `fastapi.HTTPException`: status code and optional
`{"message": ...}` detail mapping. -/
structure HTTPException where
  status_code : Nat
  detail : Option (List (String × String))
deriving DecidableEq

/-- An exception escaping the invoker into the handler body: a raised
`HTTPException`, or any other exception type (carried as its string form). -/
inductive HandlerExc
  | http (e : HTTPException)
  | other (msg : String)
deriving DecidableEq

/-- The pipeline call's outcome for one request:
`converter.convert(data, raises_on_error=False)` returns a result, raises
`FileNotFoundError`, or raises some other exception. -/
inductive PipelineOutcome
  | ok (result : ConversionResult)
  | fileNotFound (msg : String)
  | otherExc (msg : String)

/-- The error-list loop of `_check_conversion_result` (lines 259-268): walk
the records in order; at the first USER_INPUT record raise 422 with that
record's message (nothing further is logged); any other record is logged and
the walk continues.  Returns (log lines, raised exception if any). -/
def check_errors : List ErrorItem → List String × Option HTTPException
  | [] => ([], none)
  | e :: rest =>
    if e.component_type = DoclingComponentType.user_input then
      ([], some ⟨422, some [("message", e.error_message)]⟩)
    else
      let r := check_errors rest
      (("Error in: " ++ e.component_type.name ++ " - " ++ e.error_message) :: r.1, r.2)

/-- `_check_conversion_result` (lines 254-269): return silently on SUCCESS or
PARTIAL_SUCCESS; otherwise walk the error records and finally raise a bare
500 when no USER_INPUT record raised first.  Returns (log lines, raised
exception if any). -/
def _check_conversion_result (result : ConversionResult) :
    List String × Option HTTPException :=
  if result.status = ConversionStatus.success ∨
      result.status = ConversionStatus.partial_success then
    ([], none)
  else
    let r := check_errors result.errors
    match r.2 with
    | some e => (r.1, some e)
    | none => (r.1, some ⟨500, none⟩)

/-- `convert_func` (lines 115-125), the closure returned by `convert`: call
the pipeline, run `_check_conversion_result`, return the result unchanged;
`FileNotFoundError` is logged and mapped to 404 "Input not found"; every
other exception (including the `HTTPException`s raised by the check)
propagates out of the closure.  Returns (log lines, outcome). -/
def convert_func (outcome : PipelineOutcome) :
    List String × Except HandlerExc ConversionResult :=
  match outcome with
  | .ok result =>
    let c := _check_conversion_result result
    match c.2 with
    | none => (c.1, Except.ok result)
    | some e => (c.1, Except.error (HandlerExc.http e))
  | .fileNotFound m =>
    (["File not found error: " ++ m],
     Except.error (HandlerExc.http ⟨404, some [("message", "Input not found")]⟩))
  | .otherExc m => ([], Except.error (HandlerExc.other m))

/-- `_get_output` (lines 272-278): sequential ifs on the format, with an
implicit `None` fall-through when no branch matches. -/
def _get_output (document : DoclingDocument) (format : OutputFormat) :
    Option String :=
  if format = OutputFormat.markdown then some document.export_to_markdown
  else if format = OutputFormat.text then some document.export_to_text
  else if format = OutputFormat.html then some document.export_to_html
  else none

/-- The entries one annotation contributes to a record's "annotations" list
(lines 167-177): a classification annotation contributes one entry holding
`predicted_classes[0].class_name` — an `IndexError` (`none`) when the list is
empty; a description annotation contributes one entry holding its text; any
other annotation kind contributes nothing. -/
def annotationEntries : PictureAnnotationData → Option (List JsonVal)
  | .classification [] => none
  | .classification (c :: _) =>
    some [JsonVal.obj
      [("type", JsonVal.str "classification"),
       ("predicted_class", JsonVal.str c.class_name)]]
  | .description t =>
    some [JsonVal.obj
      [("type", JsonVal.str "description"), ("text", JsonVal.str t)]]
  | .misc => some []

/-- The inner annotation loop over a picture's annotation list, in order;
`none` as soon as one annotation raises. -/
def annEntriesAll : List PictureAnnotationData → Option (List JsonVal)
  | [] => some []
  | a :: rest =>
    match annotationEntries a, annEntriesAll rest with
    | some es, some rs => some (es ++ rs)
    | _, _ => none

/-- One `picture_info` record (lines 162-177): self_ref, resolved caption,
and the collected annotation entries; `none` when an annotation raises. -/
def pictureInfo (doc : DoclingDocument) (p : PictureItem) : Option JsonVal :=
  match annEntriesAll p.annotations with
  | some es =>
    some (JsonVal.obj
      [("self_ref", JsonVal.str p.self_ref),
       ("caption_text", JsonVal.str (caption_text doc p)),
       ("annotations", JsonVal.arr es)])
  | none => none

/-- `True` exactly for the items the `isinstance(element, PictureItem)`
filter keeps. -/
def isPictureItem : DocItem → Bool
  | .picture _ => true
  | .other _ => false

/-- The picture nodes of the tree in document traversal order: the items of
`doc.iterate_items()` kept by the `isinstance` filter. -/
def picturesOf (doc : DoclingDocument) : List PictureItem :=
  doc.items.filterMap fun it =>
    match it.1 with
    | .picture p => some p
    | .other _ => none

/-- The aggregation loop body over the (already filtered) pictures, appending
one record per picture; `none` at the first picture whose record raises. -/
def pdList (doc : DoclingDocument) : List PictureItem → Option (List JsonVal)
  | [] => some []
  | p :: ps =>
    match pictureInfo doc p, pdList doc ps with
    | some j, some rest => some (j :: rest)
    | _, _ => none

/-- The `picture_data` built by the aggregation loop (lines 158-178): one
record per picture node in document order; `none` when the loop raises
(`predicted_classes[0]` on an empty list). -/
def picture_data (doc : DoclingDocument) : Option (List JsonVal) :=
  pdList doc (picturesOf doc)

/-- Python dict assignment `d[k] = v` on an association list with unique
keys: overwrite in place, or append at the end when the key is new. -/
def dictSet : List (String × JsonVal) → String → JsonVal → List (String × JsonVal)
  | [], k, v => [(k, v)]
  | (k', v') :: rest, k, v =>
    if k' = k then (k, v) :: rest else (k', v') :: dictSet rest k v

/-- Observable document-level effects of a handler body: a
`doc.iterate_items()` call, a `caption_text(doc=doc)` resolution, a textual
render, a dict export.  Each event carries the document it ran on. -/
inductive Event
  | iterateItems (doc : DoclingDocument)
  | captionResolve (doc : DoclingDocument) (self_ref : String)
  | render (doc : DoclingDocument) (format : OutputFormat)
  | exportDict (doc : DoclingDocument)

/-- The caption resolutions one tree walk performs, one per picture node in
order (both the debug loop and the aggregation loop resolve every picture's
caption). -/
def pictureEvents (doc : DoclingDocument) : List Event :=
  (picturesOf doc).map fun p => Event.captionResolve doc p.self_ref

/-- The document-level effect trace of a successful handler body, in source
order: the render (line 146), the dict export when include_json (line 147),
the debug-logging walk (lines 148-156), the aggregation walk (lines
160-178). -/
def handlerTrace (doc : DoclingDocument) (include_json : Bool)
    (format : OutputFormat) : List Event :=
  [Event.render doc format]
    ++ (if include_json then [Event.exportDict doc] else [])
    ++ [Event.iterateItems doc] ++ pictureEvents doc
    ++ [Event.iterateItems doc] ++ pictureEvents doc

/-- The HTTP-visible outcome of one handler invocation: a 200 response with
its envelope (and the body's effect trace), or an error response produced
from an exception that escaped the handler body. -/
inductive HttpResponse
  | success (body : ParseResponse) (trace : List Event)
  | error (e : HTTPException)

/-- `True` exactly on the error alternative of `HttpResponse`. -/
def isErrorResponse : HttpResponse → Bool
  | .success _ _ => false
  | .error _ => true

/-- The soft-failure envelope of the bare `except:` branch (lines 139-143 and
204-208): message "Document not parsed", status "NOk", the fixed placeholder
output string, an empty json_output mapping. -/
def softFailureResponse : ParseResponse :=
  ⟨"Document not parsed", "NOk",
   ⟨some "Ask Andreas Schiffler", some []⟩⟩

/-- The shared handler body of both endpoints after the convert call (the
two copies at lines 136-187 and 201-251 are textually identical): the bare
`except:` turns every exception from the invoker into the soft-failure
envelope; otherwise render, optionally export the dict, walk the tree twice
(debug loop, aggregation loop), force `json_output or {}`, assign
`json_output["picture_data"]`, and return the Ok envelope.  An `IndexError`
raised by `predicted_classes[0]` in the loops escapes the handler into the
app-level exception handler, which re-raises it as a 500 whose detail is the
exception's string form. -/
def handlerBody (outcome : PipelineOutcome) (output_format : OutputFormat)
    (include_json : Bool) : HttpResponse :=
  match (convert_func outcome).2 with
  | Except.error _ => HttpResponse.success softFailureResponse []
  | Except.ok result =>
    match picture_data result.document with
    | none =>
      HttpResponse.error ⟨500, some [("message", "list index out of range")]⟩
    | some pd =>
      HttpResponse.success
        ⟨"Document parsed successfully", "Ok",
         ⟨_get_output result.document output_format,
          some (dictSet
            ((if include_json then some result.document.export_to_dict
              else none).getD [])
            "picture_data" (JsonVal.arr pd))⟩⟩
        (handlerTrace result.document include_json output_format)

/-- `parse_document_url` (lines 130-187). -/
def parse_document_url (outcome : PipelineOutcome) (payload : ParseUrlRequest) :
    HttpResponse :=
  handlerBody outcome payload.output_format payload.include_json

/-- `parse_document_stream` (lines 190-251); the upload's bytes feed the
pipeline and are absorbed into the pipeline outcome parameter. -/
def parse_document_stream (outcome : PipelineOutcome)
    (payload : ParseFileRequest) : HttpResponse :=
  handlerBody outcome payload.output_format payload.include_json

/-- `authorize_header` (lines 86-99): accept unconditionally when no
auth token is configured; otherwise 401 unless the bearer credential equals
the token exactly.  Returns the raised exception, `none` on acceptance. -/
def authorize_header (auth_token : Option String) (bearer : Option String) :
    Option HTTPException :=
  match auth_token with
  | none => none
  | some tok =>
    match bearer with
    | none => some ⟨401, some [("message", "Unauthorized")]⟩
    | some cred =>
      if cred ≠ tok then some ⟨401, some [("message", "Unauthorized")]⟩
      else none

/-- `True` exactly on the statuses `_check_conversion_result` does not accept
(every status other than SUCCESS and PARTIAL_SUCCESS). -/
def isFatal (s : ConversionStatus) : Bool :=
  !(s == ConversionStatus.success || s == ConversionStatus.partial_success)

/-- `True` exactly on the USER_INPUT component origin (the
`error.component_type == DoclingComponentType.USER_INPUT` test). -/
def isUserInput : DoclingComponentType → Bool
  | .document_backend => false
  | .model => false
  | .doc_assembler => false
  | .user_input => true

/-- `True` exactly on annotations on which the loops' `predicted_classes[0]`
cannot raise: every annotation except a classification with an empty
predicted-class list. -/
def classes_nonempty : PictureAnnotationData → Bool
  | .classification cs => !cs.isEmpty
  | .description _ => true
  | .misc => true

/-- Total restatement of `annotationEntries` on its non-raising domain
(`.getD []` off it), used to express aggregation results. -/
def annEntriesListD : List PictureAnnotationData → List JsonVal
  | [] => []
  | a :: rest => (annotationEntries a).getD [] ++ annEntriesListD rest

/-- The record the aggregation builds for one picture, as a total function
(agrees with `pictureInfo` wherever `pictureInfo` does not raise). -/
def pictureRecord (doc : DoclingDocument) (p : PictureItem) : JsonVal :=
  JsonVal.obj
    [("self_ref", JsonVal.str p.self_ref),
     ("caption_text", JsonVal.str (caption_text doc p)),
     ("annotations", JsonVal.arr (annEntriesListD p.annotations))]

/-- `True` exactly on `iterate_items` events. -/
def isIterateEvent : Event → Bool
  | .iterateItems _ => true
  | .captionResolve _ _ => false
  | .render _ _ => false
  | .exportDict _ => false

/-- How many `iterate_items` walks a trace contains. -/
def countIterate (t : List Event) : Nat := t.countP isIterateEvent

/-- The document an event ran on. -/
def eventDoc : Event → DoclingDocument
  | .iterateItems d => d
  | .captionResolve d _ => d
  | .render d _ => d
  | .exportDict d => d

/-- Fixture: a picture with a two-class classification annotation and a
description annotation. -/
def picA : PictureItem :=
  ⟨"#/pictures/0",
   [PictureAnnotationData.classification [⟨"chart"⟩, ⟨"photo"⟩],
    PictureAnnotationData.description "A bar chart showing sales."]⟩

/-- Fixture: a picture with no annotations. -/
def picB : PictureItem := ⟨"#/pictures/1", []⟩

/-- Fixture: a picture whose only annotation is a two-class classification. -/
def picC : PictureItem :=
  ⟨"#/pictures/2", [PictureAnnotationData.classification [⟨"chart"⟩, ⟨"photo"⟩]]⟩

/-- Fixture: a converted document with one text node and two picture nodes,
a caption entry for the first picture, and fixed exports. -/
def docW : DoclingDocument :=
  ⟨[(DocItem.other "#/texts/0", 1), (DocItem.picture picA, 1),
    (DocItem.picture picB, 2)],
   [("#/pictures/0", "Figure 1")],
   "md", "txt", "<html>",
   [("schema_name", JsonVal.str "DoclingDocument")]⟩

/-- Fixture: the `picture_data` list the aggregation builds for `docW`. -/
def pdW : List JsonVal :=
  [JsonVal.obj
    [("self_ref", JsonVal.str "#/pictures/0"),
     ("caption_text", JsonVal.str "Figure 1"),
     ("annotations", JsonVal.arr
       [JsonVal.obj
         [("type", JsonVal.str "classification"),
          ("predicted_class", JsonVal.str "chart")],
        JsonVal.obj
         [("type", JsonVal.str "description"),
          ("text", JsonVal.str "A bar chart showing sales.")]])],
   JsonVal.obj
    [("self_ref", JsonVal.str "#/pictures/1"),
     ("caption_text", JsonVal.str ""),
     ("annotations", JsonVal.arr [])]]

/-- Fixture: a successful conversion of `docW`. -/
def rOk : ConversionResult := ⟨ConversionStatus.success, [], docW⟩

/-- Fixture: a fatal conversion whose one error record has USER_INPUT origin. -/
def rUserInput : ConversionResult :=
  ⟨ConversionStatus.failure, [⟨DoclingComponentType.user_input, "bad input"⟩], docW⟩

/-- Fixture: a fatal conversion whose first record has USER_INPUT origin and
whose second is an internal MODEL error. -/
def rTwoErrors : ConversionResult :=
  ⟨ConversionStatus.failure,
   [⟨DoclingComponentType.user_input, "bad input"⟩,
    ⟨DoclingComponentType.model, "boom"⟩], docW⟩

/-- Fixture: a URL request with include_json = true. -/
def payloadW : ParseUrlRequest := ⟨"https://example.com/report.pdf", OutputFormat.markdown, true⟩

/-- Fixture: a URL request with include_json = false. -/
def payloadNoJson : ParseUrlRequest := ⟨"https://example.com/report.pdf", OutputFormat.markdown, false⟩

/-! ## Helper lemmas -/
theorem isFatal_iff (s : ConversionStatus) :
    isFatal s = true ↔
      ¬(s = ConversionStatus.success ∨ s = ConversionStatus.partial_success) := by
  cases s <;> decide

theorem isUserInput_true (c : DoclingComponentType)
    (h : c = DoclingComponentType.user_input) : isUserInput c = true := by
  subst h; rfl

theorem isUserInput_false (c : DoclingComponentType)
    (h : c ≠ DoclingComponentType.user_input) : isUserInput c = false := by
  cases c
  · rfl
  · rfl
  · rfl
  · exact absurd rfl h

theorem check_errors_find (l : List ErrorItem) (e : ErrorItem)
    (h : l.find? (fun x => isUserInput x.component_type) = some e) :
    (check_errors l).2 = some ⟨422, some [("message", e.error_message)]⟩ := by
  induction l with
  | nil => simp at h
  | cons a rest ih =>
    by_cases ha : a.component_type = DoclingComponentType.user_input
    · have ht : isUserInput a.component_type = true := isUserInput_true _ ha
      simp only [List.find?, ht] at h
      obtain rfl : a = e := by simpa using h
      simp [check_errors, ha]
    · have hfa : isUserInput a.component_type = false := isUserInput_false _ ha
      simp only [List.find?, hfa] at h
      simp [check_errors, ha, ih h]

theorem check_errors_none (l : List ErrorItem)
    (h : ∀ e ∈ l, e.component_type ≠ DoclingComponentType.user_input) :
    (check_errors l).2 = none := by
  induction l with
  | nil => rfl
  | cons a rest ih =>
    have ha := h a (List.mem_cons_self a rest)
    simp [check_errors, ha, ih fun e he => h e (List.mem_cons_of_mem a he)]

theorem check_errors_logs (l : List ErrorItem) :
    (check_errors l).1 =
      (l.takeWhile (fun x => !isUserInput x.component_type)).map
        (fun e => "Error in: " ++ e.component_type.name ++ " - " ++ e.error_message) := by
  induction l with
  | nil => rfl
  | cons a rest ih =>
    by_cases ha : a.component_type = DoclingComponentType.user_input
    · simp [check_errors, ha, List.takeWhile_cons, isUserInput]
    · simp [check_errors, ha, List.takeWhile_cons, isUserInput_false _ ha, ih]

theorem convert_func_fatal (r : ConversionResult) (hf : isFatal r.status = true) :
    convert_func (PipelineOutcome.ok r) =
      ((check_errors r.errors).1,
       Except.error (HandlerExc.http
         (match (check_errors r.errors).2 with
          | some e => e
          | none => ⟨500, none⟩))) := by
  have h := (isFatal_iff r.status).mp hf
  simp only [convert_func, _check_conversion_result, if_neg h]
  cases hc : (check_errors r.errors).2 <;> simp [hc]

theorem handlerBody_error (o : PipelineOutcome) (f : OutputFormat) (j : Bool)
    (ex : HandlerExc) (h : (convert_func o).2 = Except.error ex) :
    handlerBody o f j = HttpResponse.success softFailureResponse [] := by
  unfold handlerBody
  rw [h]

theorem handlerBody_ok (o : PipelineOutcome) (f : OutputFormat) (j : Bool)
    (r : ConversionResult) (pd : List JsonVal)
    (hok : (convert_func o).2 = Except.ok r)
    (hpd : picture_data r.document = some pd) :
    handlerBody o f j = HttpResponse.success
      (ParseResponse.mk "Document parsed successfully" "Ok"
        (ParseResponseData.mk (_get_output r.document f)
          (some (dictSet ((if j then some r.document.export_to_dict
              else none).getD [])
            "picture_data" (JsonVal.arr pd)))))
      (handlerTrace r.document j f) := by
  simp only [handlerBody, hok, hpd]

theorem annEntriesAll_eq (anns : List PictureAnnotationData)
    (h : ∀ a ∈ anns, classes_nonempty a = true) :
    annEntriesAll anns = some (annEntriesListD anns) := by
  induction anns with
  | nil => rfl
  | cons a rest ih =>
    have ha := h a (List.mem_cons_self a rest)
    have hrest := ih fun b hb => h b (List.mem_cons_of_mem a hb)
    cases a with
    | classification cs =>
      cases cs with
      | nil => simp [classes_nonempty] at ha
      | cons c cs' =>
        simp [annEntriesAll, annEntriesListD, annotationEntries, hrest]
    | description t =>
      simp [annEntriesAll, annEntriesListD, annotationEntries, hrest]
    | misc =>
      simp [annEntriesAll, annEntriesListD, annotationEntries, hrest]

theorem pictureInfo_eq (doc : DoclingDocument) (p : PictureItem)
    (h : ∀ a ∈ p.annotations, classes_nonempty a = true) :
    pictureInfo doc p = some (pictureRecord doc p) := by
  simp [pictureInfo, pictureRecord, annEntriesAll_eq p.annotations h]

theorem pdList_eq (doc : DoclingDocument) (ps : List PictureItem)
    (h : ∀ p ∈ ps, ∀ a ∈ p.annotations, classes_nonempty a = true) :
    pdList doc ps = some (ps.map (pictureRecord doc)) := by
  induction ps with
  | nil => rfl
  | cons p rest ih =>
    have hp := pictureInfo_eq doc p (h p (List.mem_cons_self p rest))
    have hrest := ih fun q hq => h q (List.mem_cons_of_mem p hq)
    simp [pdList, hp, hrest]

theorem picturesOf_length (doc : DoclingDocument) :
    (picturesOf doc).length = doc.items.countP (fun it => isPictureItem it.1) := by
  unfold picturesOf
  induction doc.items with
  | nil => rfl
  | cons x xs ih =>
    obtain ⟨it, lvl⟩ := x
    cases it <;>
      simp [List.filterMap_cons, List.countP_cons, isPictureItem, ih]

theorem countP_pictureEvents (doc : DoclingDocument) :
    (pictureEvents doc).countP isIterateEvent = 0 := by
  unfold pictureEvents
  induction picturesOf doc with
  | nil => rfl
  | cons p ps ih => simp [List.countP_cons, isIterateEvent, ih]

theorem eventDoc_caption (doc : DoclingDocument) :
    ∀ e ∈ pictureEvents doc, eventDoc e = doc := by
  intro e he
  unfold pictureEvents at he
  simp [List.mem_map] at he
  obtain ⟨p, hp, h⟩ := he
  subst h
  rfl

theorem countIterate_handlerTrace (doc : DoclingDocument) (j : Bool)
    (f : OutputFormat) : countIterate (handlerTrace doc j f) = 2 := by
  unfold countIterate handlerTrace
  rw [List.countP_append, List.countP_append, List.countP_append,
    List.countP_append, List.countP_append]
  have h0 := countP_pictureEvents doc
  cases j <;> simp [h0, isIterateEvent, List.countP_cons]

theorem handlerTrace_doc (doc : DoclingDocument) (j : Bool) (f : OutputFormat) :
    ∀ e ∈ handlerTrace doc j f, eventDoc e = doc := by
  intro e he
  have hc := eventDoc_caption doc
  unfold handlerTrace at he
  rw [List.mem_append, List.mem_append, List.mem_append, List.mem_append,
    List.mem_append] at he
  rcases he with ((((h | h) | h) | h) | h) | h
  · simp at h; subst h; rfl
  · cases j with
    | false => simp at h
    | true => simp at h; subst h; rfl
  · simp at h; subst h; rfl
  · exact hc e h
  · simp at h; subst h; rfl
  · exact hc e h

/-- C1: the claim says the HTTP boundary returns the classified status code
(422/404/500) for fatal pipeline outcomes.  It does not: the handler's bare
`except:` catches the classified `HTTPException`, and for a fatal result with
a USER_INPUT error the endpoint returns the 200 soft-failure envelope, not an
error response. -/
theorem C1_counterexample :
    parse_document_url (PipelineOutcome.ok rUserInput) payloadW =
      HttpResponse.success softFailureResponse [] ∧
    isErrorResponse (parse_document_url (PipelineOutcome.ok rUserInput) payloadW)
      = false :=
  ⟨rfl, rfl⟩

/-- C1 (amended): the conversion invoker classifies fatal outcomes into
exactly the claimed exceptions — 422 with the first USER_INPUT record's own
message, 404 with "Input not found" on `FileNotFoundError`, bare 500 (no raw
internal error string) otherwise — but the handler's bare `except:` catches
them, so the endpoint returns the 200 soft-failure envelope instead of the
classified status code. -/
theorem C1_classified_but_swallowed :
    (∀ m : String, (convert_func (PipelineOutcome.fileNotFound m)).2 =
        Except.error (HandlerExc.http
          ⟨404, some [("message", "Input not found")]⟩)) ∧
    (∀ (r : ConversionResult) (e : ErrorItem), isFatal r.status = true →
        r.errors.find? (fun x => isUserInput x.component_type) = some e →
        (convert_func (PipelineOutcome.ok r)).2 =
          Except.error (HandlerExc.http
            ⟨422, some [("message", e.error_message)]⟩)) ∧
    (∀ r : ConversionResult, isFatal r.status = true →
        (∀ e ∈ r.errors, e.component_type ≠ DoclingComponentType.user_input) →
        (convert_func (PipelineOutcome.ok r)).2 =
          Except.error (HandlerExc.http ⟨500, none⟩)) ∧
    (∀ (o : PipelineOutcome) (pu : ParseUrlRequest) (ex : HandlerExc),
        (convert_func o).2 = Except.error ex →
        parse_document_url o pu = HttpResponse.success softFailureResponse []) := by
  refine ⟨fun m => rfl, ?_, ?_, ?_⟩
  · intro r e hf hfind
    rw [convert_func_fatal r hf, check_errors_find r.errors e hfind]
  · intro r hf hnone
    rw [convert_func_fatal r hf, check_errors_none r.errors hnone]
  · intro o pu ex h
    exact handlerBody_error o pu.output_format pu.include_json ex h

/-- C2: every exception from the conversion invoker inside a handler (any
type) yields the soft-failure envelope — message "Document not parsed",
status "NOk", the fixed placeholder output string, an empty json_output
mapping — on both the URL and the file endpoint, not an HTTP error. -/
theorem C2_soft_failure_envelope (o : PipelineOutcome) (pu : ParseUrlRequest)
    (pf : ParseFileRequest) (ex : HandlerExc)
    (h : (convert_func o).2 = Except.error ex) :
    parse_document_url o pu =
      HttpResponse.success
        (ParseResponse.mk "Document not parsed" "NOk"
          (ParseResponseData.mk (some "Ask Andreas Schiffler") (some []))) [] ∧
    parse_document_stream o pf =
      HttpResponse.success
        (ParseResponse.mk "Document not parsed" "NOk"
          (ParseResponseData.mk (some "Ask Andreas Schiffler") (some []))) [] :=
  ⟨handlerBody_error o pu.output_format pu.include_json ex h,
   handlerBody_error o pf.output_format pf.include_json ex h⟩

/-- Witness for C2 at a concrete non-HTTP exception. -/
theorem C2_witness :
    parse_document_url (PipelineOutcome.otherExc "RuntimeError: boom") payloadW =
      HttpResponse.success
        (ParseResponse.mk "Document not parsed" "NOk"
          (ParseResponseData.mk (some "Ask Andreas Schiffler") (some []))) [] :=
  (C2_soft_failure_envelope (PipelineOutcome.otherExc "RuntimeError: boom")
    payloadW ⟨OutputFormat.markdown, true⟩
    (HandlerExc.other "RuntimeError: boom") rfl).1

/-- C3: on the code's domain (each classification annotation carries at
least one predicted class, as the pipeline provides), the aggregation yields
exactly one record per picture node in document traversal order — no
duplicates, no omissions, an empty annotation list for unannotated pictures —
and its length equals the number of picture-type nodes of the tree. -/
theorem C3_one_record_per_picture (doc : DoclingDocument)
    (h : ∀ p ∈ picturesOf doc, ∀ a ∈ p.annotations, classes_nonempty a = true) :
    picture_data doc = some ((picturesOf doc).map (pictureRecord doc)) ∧
    ((picturesOf doc).map (pictureRecord doc)).length =
      doc.items.countP (fun it => isPictureItem it.1) ∧
    (∀ p : PictureItem, p.annotations = [] →
        pictureRecord doc p = JsonVal.obj
          [("self_ref", JsonVal.str p.self_ref),
           ("caption_text", JsonVal.str (caption_text doc p)),
           ("annotations", JsonVal.arr [])]) := by
  refine ⟨pdList_eq doc (picturesOf doc) h, ?_, ?_⟩
  · rw [List.length_map]
    exact picturesOf_length doc
  · intro p hp
    simp [pictureRecord, hp, annEntriesListD]

/-- Witness for C3 on a concrete document with two pictures, one of them
without annotations. -/
theorem C3_witness :
    picture_data docW = some ((picturesOf docW).map (pictureRecord docW)) :=
  (C3_one_record_per_picture docW (by decide)).1

/-- C4: the claim says every error record of a fatal result is logged.  It
is not: with a USER_INPUT record first, the 422 is raised immediately and
none of the two records is logged. -/
theorem C4_counterexample :
    convert_func (PipelineOutcome.ok rTwoErrors) =
      ([], Except.error (HandlerExc.http
        ⟨422, some [("message", "bad input")]⟩)) ∧
    rTwoErrors.errors.length = 2 ∧
    ¬((convert_func (PipelineOutcome.ok rTwoErrors)).1.length =
        rTwoErrors.errors.length) :=
  ⟨rfl, rfl, by decide⟩

/-- C4 (amended): on a fatal result, exactly the records strictly before the
first USER_INPUT record are logged (all records when none has USER_INPUT
origin); the first USER_INPUT record's message — and nothing else, no
component name — is surfaced as the 422 detail. -/
theorem C4_logging_before_first_user_input (r : ConversionResult)
    (hf : isFatal r.status = true) :
    (convert_func (PipelineOutcome.ok r)).1 =
      (r.errors.takeWhile (fun x => !isUserInput x.component_type)).map
        (fun e => "Error in: " ++ e.component_type.name ++ " - " ++ e.error_message) ∧
    (∀ e : ErrorItem,
        r.errors.find? (fun x => isUserInput x.component_type) = some e →
        (convert_func (PipelineOutcome.ok r)).2 =
          Except.error (HandlerExc.http
            ⟨422, some [("message", e.error_message)]⟩)) := by
  constructor
  · rw [convert_func_fatal r hf]
    exact check_errors_logs r.errors
  · intro e hfind
    rw [convert_func_fatal r hf, check_errors_find r.errors e hfind]

/-- Witness for C4 (amended): at the concrete fatal result, nothing is
logged (the USER_INPUT record is first). -/
theorem C4_witness : (convert_func (PipelineOutcome.ok rTwoErrors)).1 = [] :=
  ((C4_logging_before_first_user_input rTwoErrors (by decide)).1).trans (by decide)

/-- C5: when the pipeline reports SUCCESS or PARTIAL_SUCCESS, the invoker
raises nothing and passes the pipeline's `ConversionResult` through
unchanged (and logs nothing). -/
theorem C5_pass_through (r : ConversionResult)
    (h : r.status = ConversionStatus.success ∨
         r.status = ConversionStatus.partial_success) :
    convert_func (PipelineOutcome.ok r) = ([], Except.ok r) := by
  simp [convert_func, _check_conversion_result, if_pos h]

/-- Witness for C5 at a concrete SUCCESS result. -/
theorem C5_witness : convert_func (PipelineOutcome.ok rOk) = ([], Except.ok rOk) :=
  C5_pass_through rOk (Or.inl rfl)

/-- C6: a classification annotation with a non-empty predicted-class list
contributes exactly one entry carrying the first (pipeline-ordered) class
name, dropping the rest, and the index access is in bounds (the aggregation
does not raise); a picture whose only annotation it is gets exactly that
record. -/
theorem C6_first_predicted_class (doc : DoclingDocument) (p : PictureItem)
    (cs : List PictureClassificationClass) (h : cs ≠ [])
    (hp : p.annotations = [PictureAnnotationData.classification cs]) :
    annotationEntries (PictureAnnotationData.classification cs) =
      some [JsonVal.obj
        [("type", JsonVal.str "classification"),
         ("predicted_class", JsonVal.str (cs.head h).class_name)]] ∧
    pictureInfo doc p =
      some (JsonVal.obj
        [("self_ref", JsonVal.str p.self_ref),
         ("caption_text", JsonVal.str (caption_text doc p)),
         ("annotations", JsonVal.arr
           [JsonVal.obj
             [("type", JsonVal.str "classification"),
              ("predicted_class", JsonVal.str (cs.head h).class_name)]])]) := by
  cases cs with
  | nil => exact absurd rfl h
  | cons c rest =>
    refine ⟨rfl, ?_⟩
    simp [pictureInfo, annEntriesAll, annotationEntries, hp, List.head_cons]

/-- Witness for C6: with predicted classes ["chart", "photo"] exactly
"chart" is surfaced. -/
theorem C6_witness :
    annotationEntries (PictureAnnotationData.classification [⟨"chart"⟩, ⟨"photo"⟩]) =
      some [JsonVal.obj
        [("type", JsonVal.str "classification"),
         ("predicted_class", JsonVal.str "chart")]] :=
  (C6_first_predicted_class docW picC [⟨"chart"⟩, ⟨"photo"⟩] (by decide) rfl).1

/-- C7: the claim says the picture-aggregation traversal runs exactly once
per request.  It runs twice: the debug-logging loop walks `iterate_items`
and resolves every caption, and the aggregation loop walks again; on the
concrete request the trace holds two `iterate_items` events, not one. -/
theorem C7_counterexample :
    parse_document_url (PipelineOutcome.ok rOk) payloadNoJson =
      HttpResponse.success
        (ParseResponse.mk "Document parsed successfully" "Ok"
          (ParseResponseData.mk (some "md")
            (some [("picture_data", JsonVal.arr pdW)])))
        (handlerTrace docW false OutputFormat.markdown) ∧
    countIterate (handlerTrace docW false OutputFormat.markdown) = 2 ∧
    ¬(countIterate (handlerTrace docW false OutputFormat.markdown) = 1) :=
  ⟨rfl, by decide, by decide⟩

/-- C7 (amended): per successful request the item-iterating,
caption-resolving walk is performed exactly twice (debug-logging pass, then
aggregation pass), both times — like the rendering — on the same document
instance of the conversion result. -/
theorem C7_two_walks_same_document (o : PipelineOutcome) (pu : ParseUrlRequest)
    (r : ConversionResult) (pd : List JsonVal)
    (hok : (convert_func o).2 = Except.ok r)
    (hpd : picture_data r.document = some pd) :
    parse_document_url o pu =
      HttpResponse.success
        (ParseResponse.mk "Document parsed successfully" "Ok"
          (ParseResponseData.mk (_get_output r.document pu.output_format)
            (some (dictSet ((if pu.include_json then
                some r.document.export_to_dict else none).getD [])
              "picture_data" (JsonVal.arr pd)))))
        (handlerTrace r.document pu.include_json pu.output_format) ∧
    countIterate (handlerTrace r.document pu.include_json pu.output_format) = 2 ∧
    (∀ e ∈ handlerTrace r.document pu.include_json pu.output_format,
        eventDoc e = r.document) :=
  ⟨handlerBody_ok o pu.output_format pu.include_json r pd hok hpd,
   countIterate_handlerTrace r.document pu.include_json pu.output_format,
   handlerTrace_doc r.document pu.include_json pu.output_format⟩

/-- Witness for C7 (amended) at the concrete successful request. -/
theorem C7_witness :
    countIterate (handlerTrace docW false OutputFormat.markdown) = 2 :=
  (C7_two_walks_same_document (PipelineOutcome.ok rOk) payloadNoJson rOk pdW
    rfl rfl).2.1

/-- C8: with no auth token configured the check accepts every request (even
with no Authorization header); with a token configured it rejects with 401
every absent or mismatching bearer credential and accepts exactly the equal
one. -/
theorem C8_bearer_auth (tok cred : String) (bearer : Option String) :
    authorize_header none bearer = none ∧
    authorize_header (some tok) none =
      some ⟨401, some [("message", "Unauthorized")]⟩ ∧
    (cred ≠ tok →
      authorize_header (some tok) (some cred) =
        some ⟨401, some [("message", "Unauthorized")]⟩) ∧
    authorize_header (some tok) (some tok) = none := by
  refine ⟨rfl, rfl, ?_, ?_⟩
  · intro hne
    simp [authorize_header, hne]
  · simp [authorize_header]

/-- C9: every successfully parsed request carries a non-null json_output:
exactly the single "picture_data" key when include_json is false, the full
dict export with "picture_data" assigned when include_json is true. -/
theorem C9_json_output_shape (o : PipelineOutcome) (pu : ParseUrlRequest)
    (r : ConversionResult) (pd : List JsonVal)
    (hok : (convert_func o).2 = Except.ok r)
    (hpd : picture_data r.document = some pd) :
    (pu.include_json = false →
      parse_document_url o pu =
        HttpResponse.success
          (ParseResponse.mk "Document parsed successfully" "Ok"
            (ParseResponseData.mk (_get_output r.document pu.output_format)
              (some [("picture_data", JsonVal.arr pd)])))
          (handlerTrace r.document pu.include_json pu.output_format)) ∧
    (pu.include_json = true →
      parse_document_url o pu =
        HttpResponse.success
          (ParseResponse.mk "Document parsed successfully" "Ok"
            (ParseResponseData.mk (_get_output r.document pu.output_format)
              (some (dictSet r.document.export_to_dict "picture_data"
                (JsonVal.arr pd)))))
          (handlerTrace r.document pu.include_json pu.output_format)) := by
  have h := handlerBody_ok o pu.output_format pu.include_json r pd hok hpd
  constructor
  · intro hj
    rw [hj] at h
    simpa [parse_document_url, hj, dictSet] using h
  · intro hj
    rw [hj] at h
    simpa [parse_document_url, hj] using h

/-- Witness for C9 at the concrete successful request with include_json
false. -/
theorem C9_witness :
    parse_document_url (PipelineOutcome.ok rOk) payloadNoJson =
      HttpResponse.success
        (ParseResponse.mk "Document parsed successfully" "Ok"
          (ParseResponseData.mk (some "md")
            (some [("picture_data", JsonVal.arr pdW)])))
        (handlerTrace docW false OutputFormat.markdown) :=
  (C9_json_output_shape (PipelineOutcome.ok rOk) payloadNoJson rOk pdW
    rfl rfl).1 rfl

/-- C10: for each of the three OutputFormat members `_get_output` returns
the corresponding export, and the implicit `None` fall-through is
unreachable. -/
theorem C10_renderer_total (doc : DoclingDocument) :
    _get_output doc OutputFormat.markdown = some doc.export_to_markdown ∧
    _get_output doc OutputFormat.text = some doc.export_to_text ∧
    _get_output doc OutputFormat.html = some doc.export_to_html ∧
    ∀ format : OutputFormat, _get_output doc format ≠ none := by
  refine ⟨rfl, rfl, rfl, ?_⟩
  intro f
  cases f <;> simp [_get_output]
